import Mathlib

/-!
Shallow embedding of the financial core of src/streamlit_app.py.

The record DadosFinanceirosUsuario mirrors the Python class of the same
name; monetary amounts become rationals, Python dicts become association
lists, and the float value inf that the source stores in
tempo_para_montar_reserva_meses when no balance is available for the
emergency fund is modelled by the Option sentinel none (some q models a
finite number of months q).
-/

/-- A tipo/natureza classification pair, as stored per expense category. -/
structure Classificacao where
  tipo : String
  natureza : String
deriving DecidableEq, Repr

/-- One debt record, mirroring the dict appended to dividas_list. -/
structure Divida where
  tipo : String
  valor_original : ℚ
  valor_restante : ℚ
  taxa_juros_anual : ℚ
  parcelas_totais : ℕ
  parcelas_restantes : ℕ
deriving DecidableEq, Repr

/-- The user data record DadosFinanceirosUsuario with the defaults of its
constructor. tempo_para_montar_reserva_meses is an Option: none stands for
the float inf sentinel of the source. -/
@[ext]
structure DadosFinanceirosUsuario where
  email_pessoal_usuario : String := ""
  renda_liquida_mensal : ℚ := 0
  fonte_renda : String := ""
  gastos_por_categoria : List (String × ℚ) := []
  patrimonio : List (String × ℚ) := []
  dividas : List Divida := []
  dependentes : ℕ := 0
  estabilidade_financeira : String := ""
  total_gastos_mensais : ℚ := 0
  total_gastos_essenciais : ℚ := 0
  classificacao_gastos : List (String × Classificacao) := []
  status_fluxo_caixa : String := ""
  saldo_mensal : ℚ := 0
  valor_reserva_emergencia_ideal : ℚ := 0
  meses_reserva_sugerido : ℕ := 0
  saldo_mensal_para_reserva : ℚ := 0
  tempo_para_montar_reserva_meses : Option ℚ := some 0
  meta_mensal_reserva : ℚ := 0
  relatorio_mensal_simulado : String := ""
  feedback_ia_comportamento : String := ""
deriving DecidableEq, Repr

/-- The fixed classification table classificacao_padrao of
processar_dados_streamlit, with its nine known categories. -/
def classificacao_padrao : List (String × Classificacao) :=
  [("Moradia (Aluguel)", ⟨"Essencial", "Fixo"⟩),
   ("Alimentação", ⟨"Essencial", "Variável"⟩),
   ("Transporte (Carro, Transporte Público, Uber...)", ⟨"Essencial", "Variável"⟩),
   ("Saúde", ⟨"Essencial", "Variável"⟩),
   ("Educação", ⟨"Essencial", "Fixo"⟩),
   ("Lazer", ⟨"Supérfluo", "Variável"⟩),
   ("Assinaturas", ⟨"Supérfluo", "Fixo"⟩),
   ("Contas de Consumo (água, luz, gás)", ⟨"Essencial", "Variável"⟩),
   ("Outros (Cabelo, Estética...)", ⟨"Variável", "Variável"⟩)]

/-- Character-wise lowercasing, the embedding of the lower() call of the
source; on the stability strings offered by the form it agrees with the
Python method (the only non-ASCII letters there are already lowercase). -/
def str_lower (s : String) : String := ⟨s.data.map Char.toLower⟩

/-- The profile builder processar_dados_streamlit: keeps only strictly
positive expense and asset entries and attaches the default classification
to each surviving expense category, with the fallback pair
tipo Variável / natureza Variável for categories missing from the table. -/
def processar_dados_streamlit (email : String) (renda : ℚ) (fonte_renda : String)
    (dependentes : ℕ) (estabilidade : String) (gastos_dict : List (String × ℚ))
    (patrimonio_dict : List (String × ℚ)) (dividas_list : List Divida) :
    DadosFinanceirosUsuario :=
  let gastos := gastos_dict.filter (fun p => decide (0 < p.2))
  { email_pessoal_usuario := email
    renda_liquida_mensal := renda
    fonte_renda := fonte_renda
    dependentes := dependentes
    estabilidade_financeira := estabilidade
    gastos_por_categoria := gastos
    patrimonio := patrimonio_dict.filter (fun p => decide (0 < p.2))
    dividas := dividas_list
    classificacao_gastos :=
      gastos.map (fun p =>
        (p.1, (classificacao_padrao.lookup p.1).getD ⟨"Variável", "Variável"⟩)) }

/-- The tipo looked up for a category, mirroring the chained get calls
on classificacao_gastos in the source (missing key gives no tipo). -/
def tipoDe (cls : List (String × Classificacao)) (cat : String) : Option String :=
  (cls.lookup cat).map Classificacao.tipo

/-- The cash-flow stage analisar_fluxo_caixa: total expenses, essential
expenses, monthly balance, and the sign-based status string. -/
def analisar_fluxo_caixa (d : DadosFinanceirosUsuario) : DadosFinanceirosUsuario :=
  let total := (d.gastos_por_categoria.map Prod.snd).sum
  let essenciais :=
    ((d.gastos_por_categoria.filter
        (fun p => tipoDe d.classificacao_gastos p.1 == some "Essencial")).map Prod.snd).sum
  let saldo := d.renda_liquida_mensal - total
  { d with
    total_gastos_mensais := total
    total_gastos_essenciais := essenciais
    saldo_mensal := saldo
    status_fluxo_caixa :=
      if 0 < saldo then "Superavitário"
      else if saldo < 0 then "Deficitário"
      else "Equilibrado" }

/-- The emergency-fund planning stage planejar_reserva_emergencia: horizon
(12 for autônomo or informal stability, lower-cased, else 6), ideal target,
the non-negative balance available, and the guarded months-to-target with
its inner redundant guard kept from the source; none models float inf. -/
def planejar_reserva_emergencia (d : DadosFinanceirosUsuario) : DadosFinanceirosUsuario :=
  let meses_sugerido : ℕ :=
    if str_lower d.estabilidade_financeira ∈ ["autônomo", "informal"] then 12 else 6
  let d1 := { d with
    meses_reserva_sugerido := meses_sugerido
    valor_reserva_emergencia_ideal := d.total_gastos_essenciais * (meses_sugerido : ℚ)
    saldo_mensal_para_reserva := max 0 d.saldo_mensal }
  if 0 < d1.saldo_mensal_para_reserva then
    { d1 with
      tempo_para_montar_reserva_meses :=
        if 0 < d1.saldo_mensal_para_reserva then
          some (d1.valor_reserva_emergencia_ideal / d1.saldo_mensal_para_reserva)
        else none
      meta_mensal_reserva := d1.saldo_mensal_para_reserva }
  else
    { d1 with
      tempo_para_montar_reserva_meses := none
      meta_mensal_reserva := 0 }

/-- The two calculator stages in the order main runs them. -/
def executar_analise (d : DadosFinanceirosUsuario) : DadosFinanceirosUsuario :=
  planejar_reserva_emergencia (analisar_fluxo_caixa d)

/-- Sum of the values of a category-to-amount mapping. -/
def sumValues (m : List (String × ℚ)) : ℚ := (m.map Prod.snd).sum

/-! Projection lemmas: what each calculator stage writes and what it
leaves untouched, read off the structure updates. -/

@[simp] lemma analisar_email (d : DadosFinanceirosUsuario) :
    (analisar_fluxo_caixa d).email_pessoal_usuario = d.email_pessoal_usuario := rfl

@[simp] lemma analisar_renda (d : DadosFinanceirosUsuario) :
    (analisar_fluxo_caixa d).renda_liquida_mensal = d.renda_liquida_mensal := rfl

@[simp] lemma analisar_fonte (d : DadosFinanceirosUsuario) :
    (analisar_fluxo_caixa d).fonte_renda = d.fonte_renda := rfl

@[simp] lemma analisar_gastos (d : DadosFinanceirosUsuario) :
    (analisar_fluxo_caixa d).gastos_por_categoria = d.gastos_por_categoria := rfl

@[simp] lemma analisar_patrimonio (d : DadosFinanceirosUsuario) :
    (analisar_fluxo_caixa d).patrimonio = d.patrimonio := rfl

@[simp] lemma analisar_dividas (d : DadosFinanceirosUsuario) :
    (analisar_fluxo_caixa d).dividas = d.dividas := rfl

@[simp] lemma analisar_dependentes (d : DadosFinanceirosUsuario) :
    (analisar_fluxo_caixa d).dependentes = d.dependentes := rfl

@[simp] lemma analisar_estabilidade (d : DadosFinanceirosUsuario) :
    (analisar_fluxo_caixa d).estabilidade_financeira = d.estabilidade_financeira := rfl

@[simp] lemma analisar_classificacao (d : DadosFinanceirosUsuario) :
    (analisar_fluxo_caixa d).classificacao_gastos = d.classificacao_gastos := rfl

@[simp] lemma analisar_valor_reserva (d : DadosFinanceirosUsuario) :
    (analisar_fluxo_caixa d).valor_reserva_emergencia_ideal = d.valor_reserva_emergencia_ideal := rfl

@[simp] lemma analisar_meses_reserva (d : DadosFinanceirosUsuario) :
    (analisar_fluxo_caixa d).meses_reserva_sugerido = d.meses_reserva_sugerido := rfl

@[simp] lemma analisar_saldo_para_reserva (d : DadosFinanceirosUsuario) :
    (analisar_fluxo_caixa d).saldo_mensal_para_reserva = d.saldo_mensal_para_reserva := rfl

@[simp] lemma analisar_tempo_reserva (d : DadosFinanceirosUsuario) :
    (analisar_fluxo_caixa d).tempo_para_montar_reserva_meses = d.tempo_para_montar_reserva_meses := rfl

@[simp] lemma analisar_meta_reserva (d : DadosFinanceirosUsuario) :
    (analisar_fluxo_caixa d).meta_mensal_reserva = d.meta_mensal_reserva := rfl

@[simp] lemma analisar_relatorio (d : DadosFinanceirosUsuario) :
    (analisar_fluxo_caixa d).relatorio_mensal_simulado = d.relatorio_mensal_simulado := rfl

@[simp] lemma analisar_feedback (d : DadosFinanceirosUsuario) :
    (analisar_fluxo_caixa d).feedback_ia_comportamento = d.feedback_ia_comportamento := rfl

@[simp] lemma analisar_total (d : DadosFinanceirosUsuario) :
    (analisar_fluxo_caixa d).total_gastos_mensais = (d.gastos_por_categoria.map Prod.snd).sum := rfl

@[simp] lemma analisar_essenciais (d : DadosFinanceirosUsuario) :
    (analisar_fluxo_caixa d).total_gastos_essenciais =
      ((d.gastos_por_categoria.filter
          (fun p => tipoDe d.classificacao_gastos p.1 == some "Essencial")).map Prod.snd).sum := rfl

@[simp] lemma analisar_saldo (d : DadosFinanceirosUsuario) :
    (analisar_fluxo_caixa d).saldo_mensal =
      d.renda_liquida_mensal - (d.gastos_por_categoria.map Prod.snd).sum := rfl

@[simp] lemma analisar_status (d : DadosFinanceirosUsuario) :
    (analisar_fluxo_caixa d).status_fluxo_caixa =
      if 0 < d.renda_liquida_mensal - (d.gastos_por_categoria.map Prod.snd).sum then "Superavitário"
      else if d.renda_liquida_mensal - (d.gastos_por_categoria.map Prod.snd).sum < 0 then "Deficitário"
      else "Equilibrado" := rfl

@[simp] lemma planejar_email (d : DadosFinanceirosUsuario) :
    (planejar_reserva_emergencia d).email_pessoal_usuario = d.email_pessoal_usuario := by
  simp only [planejar_reserva_emergencia]; split <;> rfl

@[simp] lemma planejar_renda (d : DadosFinanceirosUsuario) :
    (planejar_reserva_emergencia d).renda_liquida_mensal = d.renda_liquida_mensal := by
  simp only [planejar_reserva_emergencia]; split <;> rfl

@[simp] lemma planejar_fonte (d : DadosFinanceirosUsuario) :
    (planejar_reserva_emergencia d).fonte_renda = d.fonte_renda := by
  simp only [planejar_reserva_emergencia]; split <;> rfl

@[simp] lemma planejar_gastos (d : DadosFinanceirosUsuario) :
    (planejar_reserva_emergencia d).gastos_por_categoria = d.gastos_por_categoria := by
  simp only [planejar_reserva_emergencia]; split <;> rfl

@[simp] lemma planejar_patrimonio (d : DadosFinanceirosUsuario) :
    (planejar_reserva_emergencia d).patrimonio = d.patrimonio := by
  simp only [planejar_reserva_emergencia]; split <;> rfl

@[simp] lemma planejar_dividas (d : DadosFinanceirosUsuario) :
    (planejar_reserva_emergencia d).dividas = d.dividas := by
  simp only [planejar_reserva_emergencia]; split <;> rfl

@[simp] lemma planejar_dependentes (d : DadosFinanceirosUsuario) :
    (planejar_reserva_emergencia d).dependentes = d.dependentes := by
  simp only [planejar_reserva_emergencia]; split <;> rfl

@[simp] lemma planejar_estabilidade (d : DadosFinanceirosUsuario) :
    (planejar_reserva_emergencia d).estabilidade_financeira = d.estabilidade_financeira := by
  simp only [planejar_reserva_emergencia]; split <;> rfl

@[simp] lemma planejar_classificacao (d : DadosFinanceirosUsuario) :
    (planejar_reserva_emergencia d).classificacao_gastos = d.classificacao_gastos := by
  simp only [planejar_reserva_emergencia]; split <;> rfl

@[simp] lemma planejar_total (d : DadosFinanceirosUsuario) :
    (planejar_reserva_emergencia d).total_gastos_mensais = d.total_gastos_mensais := by
  simp only [planejar_reserva_emergencia]; split <;> rfl

@[simp] lemma planejar_essenciais (d : DadosFinanceirosUsuario) :
    (planejar_reserva_emergencia d).total_gastos_essenciais = d.total_gastos_essenciais := by
  simp only [planejar_reserva_emergencia]; split <;> rfl

@[simp] lemma planejar_status (d : DadosFinanceirosUsuario) :
    (planejar_reserva_emergencia d).status_fluxo_caixa = d.status_fluxo_caixa := by
  simp only [planejar_reserva_emergencia]; split <;> rfl

@[simp] lemma planejar_saldo (d : DadosFinanceirosUsuario) :
    (planejar_reserva_emergencia d).saldo_mensal = d.saldo_mensal := by
  simp only [planejar_reserva_emergencia]; split <;> rfl

@[simp] lemma planejar_relatorio (d : DadosFinanceirosUsuario) :
    (planejar_reserva_emergencia d).relatorio_mensal_simulado = d.relatorio_mensal_simulado := by
  simp only [planejar_reserva_emergencia]; split <;> rfl

@[simp] lemma planejar_feedback (d : DadosFinanceirosUsuario) :
    (planejar_reserva_emergencia d).feedback_ia_comportamento = d.feedback_ia_comportamento := by
  simp only [planejar_reserva_emergencia]; split <;> rfl

@[simp] lemma planejar_meses (d : DadosFinanceirosUsuario) :
    (planejar_reserva_emergencia d).meses_reserva_sugerido =
      if str_lower d.estabilidade_financeira ∈ ["autônomo", "informal"] then 12 else 6 := by
  simp only [planejar_reserva_emergencia]; split <;> rfl

@[simp] lemma planejar_valor (d : DadosFinanceirosUsuario) :
    (planejar_reserva_emergencia d).valor_reserva_emergencia_ideal =
      d.total_gastos_essenciais *
        Nat.cast (if str_lower d.estabilidade_financeira ∈ ["autônomo", "informal"] then 12 else 6) := by
  simp only [planejar_reserva_emergencia]; split <;> rfl

@[simp] lemma planejar_saldo_para (d : DadosFinanceirosUsuario) :
    (planejar_reserva_emergencia d).saldo_mensal_para_reserva = max 0 d.saldo_mensal := by
  simp only [planejar_reserva_emergencia]; split <;> rfl

@[simp] lemma planejar_tempo (d : DadosFinanceirosUsuario) :
    (planejar_reserva_emergencia d).tempo_para_montar_reserva_meses =
      if 0 < max 0 d.saldo_mensal then
        some ((d.total_gastos_essenciais *
            Nat.cast (if str_lower d.estabilidade_financeira ∈ ["autônomo", "informal"] then 12 else 6))
          / max 0 d.saldo_mensal)
      else none := by
  simp only [planejar_reserva_emergencia]
  split <;> rename_i h <;> simp_all

@[simp] lemma planejar_meta (d : DadosFinanceirosUsuario) :
    (planejar_reserva_emergencia d).meta_mensal_reserva =
      if 0 < max 0 d.saldo_mensal then max 0 d.saldo_mensal else 0 := by
  simp only [planejar_reserva_emergencia]
  split <;> rename_i h <;> simp_all

@[simp] lemma processar_gastos (email : String) (renda : ℚ) (fonte_renda : String)
    (dependentes : ℕ) (estabilidade : String) (gastos_dict : List (String × ℚ))
    (patrimonio_dict : List (String × ℚ)) (dividas_list : List Divida) :
    (processar_dados_streamlit email renda fonte_renda dependentes estabilidade
        gastos_dict patrimonio_dict dividas_list).gastos_por_categoria
      = gastos_dict.filter (fun p => decide (0 < p.2)) := rfl

@[simp] lemma processar_patrimonio (email : String) (renda : ℚ) (fonte_renda : String)
    (dependentes : ℕ) (estabilidade : String) (gastos_dict : List (String × ℚ))
    (patrimonio_dict : List (String × ℚ)) (dividas_list : List Divida) :
    (processar_dados_streamlit email renda fonte_renda dependentes estabilidade
        gastos_dict patrimonio_dict dividas_list).patrimonio
      = patrimonio_dict.filter (fun p => decide (0 < p.2)) := rfl

@[simp] lemma processar_classificacao (email : String) (renda : ℚ) (fonte_renda : String)
    (dependentes : ℕ) (estabilidade : String) (gastos_dict : List (String × ℚ))
    (patrimonio_dict : List (String × ℚ)) (dividas_list : List Divida) :
    (processar_dados_streamlit email renda fonte_renda dependentes estabilidade
        gastos_dict patrimonio_dict dividas_list).classificacao_gastos
      = (gastos_dict.filter (fun p => decide (0 < p.2))).map (fun p =>
          (p.1, (classificacao_padrao.lookup p.1).getD ⟨"Variável", "Variável"⟩)) := rfl

@[simp] lemma processar_renda (email : String) (renda : ℚ) (fonte_renda : String)
    (dependentes : ℕ) (estabilidade : String) (gastos_dict : List (String × ℚ))
    (patrimonio_dict : List (String × ℚ)) (dividas_list : List Divida) :
    (processar_dados_streamlit email renda fonte_renda dependentes estabilidade
        gastos_dict patrimonio_dict dividas_list).renda_liquida_mensal = renda := rfl

/-! Helper lemmas about sums over association lists. -/

lemma sum_filter_eq_sum_ite (l : List (String × ℚ)) (p : String → Bool) :
    ((l.filter (fun x => p x.1)).map Prod.snd).sum
      = (l.map (fun x => if p x.1 then x.2 else 0)).sum := by
  induction l with
  | nil => rfl
  | cons a t ih =>
      cases h : p a.1 <;> simp [List.filter_cons, h, ih]

lemma sum_filter_le_sum (l : List (String × ℚ)) (p : (String × ℚ) → Bool)
    (h : ∀ x ∈ l, 0 ≤ x.2) :
    ((l.filter p).map Prod.snd).sum ≤ (l.map Prod.snd).sum := by
  induction l with
  | nil => exact le_refl _
  | cons a t ih =>
      have ha : 0 ≤ a.2 := h a (List.mem_cons_self a t)
      have ht : ∀ x ∈ t, 0 ≤ x.2 := fun x hx => h x (List.mem_cons_of_mem a hx)
      cases hp : p a
      · simp only [List.filter_cons, hp, List.map_cons, List.sum_cons]
        calc ((t.filter p).map Prod.snd).sum ≤ (t.map Prod.snd).sum := ih ht
          _ ≤ a.2 + (t.map Prod.snd).sum := by linarith
      · simp only [List.filter_cons, hp, List.map_cons, List.sum_cons]
        exact add_le_add_left (ih ht) a.2

lemma lookup_map_fst {β : Type} (l : List (String × ℚ)) (f : String → β) (cat : String)
    (h : cat ∈ l.map Prod.fst) :
    (l.map (fun p => (p.1, f p.1))).lookup cat = some (f cat) := by
  induction l with
  | nil => simp at h
  | cons a t ih =>
      by_cases hc : cat = a.1
      · subst hc
        simp [List.lookup]
      · have hb : (cat == a.1) = false := by simp [hc]
        simp only [List.map_cons, List.lookup, hb]
        apply ih
        simp only [List.map_cons, List.mem_cons] at h
        exact h.resolve_left hc

lemma filter_essencial_excl (l : List (String × ℚ)) (cls : List (String × Classificacao))
    (cat : String) (hcat : (tipoDe cls cat == some "Essencial") = false) :
    l.filter (fun p => tipoDe cls p.1 == some "Essencial")
      = l.filter (fun p => decide (p.1 ≠ cat) && (tipoDe cls p.1 == some "Essencial")) := by
  induction l with
  | nil => rfl
  | cons a t ih =>
      by_cases hc : a.1 = cat
      · rw [List.filter_cons, List.filter_cons]
        have h1 : (tipoDe cls a.1 == some "Essencial") = false := by rw [hc]; exact hcat
        simp [h1, ih]
      · rw [List.filter_cons, List.filter_cons]
        have h2 : decide (a.1 ≠ cat) = true := by simp [hc]
        rw [h2, Bool.true_and, ih]

/-! Fixed-point lemmas: a snapshot whose derived fields already hold the
values a stage computes is left unchanged by that stage. -/

lemma analisar_fixpoint (s : DadosFinanceirosUsuario)
    (h1 : s.total_gastos_mensais = (s.gastos_por_categoria.map Prod.snd).sum)
    (h2 : s.total_gastos_essenciais =
      ((s.gastos_por_categoria.filter
          (fun p => tipoDe s.classificacao_gastos p.1 == some "Essencial")).map Prod.snd).sum)
    (h3 : s.saldo_mensal = s.renda_liquida_mensal - (s.gastos_por_categoria.map Prod.snd).sum)
    (h4 : s.status_fluxo_caixa =
      if 0 < s.renda_liquida_mensal - (s.gastos_por_categoria.map Prod.snd).sum then "Superavitário"
      else if s.renda_liquida_mensal - (s.gastos_por_categoria.map Prod.snd).sum < 0 then "Deficitário"
      else "Equilibrado") :
    analisar_fluxo_caixa s = s := by
  ext <;> simp [h1, h2, h3, h4]

lemma planejar_fixpoint (s : DadosFinanceirosUsuario)
    (h1 : s.meses_reserva_sugerido =
      if str_lower s.estabilidade_financeira ∈ ["autônomo", "informal"] then 12 else 6)
    (h2 : s.valor_reserva_emergencia_ideal =
      s.total_gastos_essenciais *
        Nat.cast (if str_lower s.estabilidade_financeira ∈ ["autônomo", "informal"] then 12 else 6))
    (h3 : s.saldo_mensal_para_reserva = max 0 s.saldo_mensal)
    (h4 : s.tempo_para_montar_reserva_meses =
      if 0 < max 0 s.saldo_mensal then
        some ((s.total_gastos_essenciais *
            Nat.cast (if str_lower s.estabilidade_financeira ∈ ["autônomo", "informal"] then 12 else 6))
          / max 0 s.saldo_mensal)
      else none)
    (h5 : s.meta_mensal_reserva =
      if 0 < max 0 s.saldo_mensal then max 0 s.saldo_mensal else 0) :
    planejar_reserva_emergencia s = s := by
  ext <;> simp [h1, h2, h3, h4, h5]

example : sumValues [("a", 2), ("b", 3)] = 5 := by norm_num [sumValues]

/-- C1: for every snapshot, the cash-flow stage sets total monthly expenses
to the sum of the values of the expense-amount mapping, total essential
expenses to the sum of those values whose category is classified
Essencial, and the monthly balance to income minus total expenses. -/
theorem analisar_fluxo_caixa_totais (d : DadosFinanceirosUsuario) :
    (analisar_fluxo_caixa d).total_gastos_mensais = sumValues d.gastos_por_categoria ∧
    (analisar_fluxo_caixa d).total_gastos_essenciais
      = (d.gastos_por_categoria.map
          (fun p => if tipoDe d.classificacao_gastos p.1 == some "Essencial" then p.2 else 0)).sum ∧
    (analisar_fluxo_caixa d).saldo_mensal
      = d.renda_liquida_mensal - (analisar_fluxo_caixa d).total_gastos_mensais := by
  refine ⟨rfl, ?_, rfl⟩
  rw [analisar_essenciais]
  exact sum_filter_eq_sum_ite d.gastos_por_categoria
    (fun c => tipoDe d.classificacao_gastos c == some "Essencial")

/-- C3: after the cash-flow stage the status is Superavitário exactly when
the monthly balance is positive, Deficitário exactly when it is negative,
and Equilibrado exactly when it is zero. -/
theorem status_fluxo_sinal (d : DadosFinanceirosUsuario) :
    ((analisar_fluxo_caixa d).status_fluxo_caixa = "Superavitário" ↔
        0 < (analisar_fluxo_caixa d).saldo_mensal) ∧
    ((analisar_fluxo_caixa d).status_fluxo_caixa = "Deficitário" ↔
        (analisar_fluxo_caixa d).saldo_mensal < 0) ∧
    ((analisar_fluxo_caixa d).status_fluxo_caixa = "Equilibrado" ↔
        (analisar_fluxo_caixa d).saldo_mensal = 0) := by
  rw [analisar_status, analisar_saldo]
  rcases lt_trichotomy (d.renda_liquida_mensal - (d.gastos_por_categoria.map Prod.snd).sum) 0
    with h | h | h
  · have h1 : ¬ 0 < d.renda_liquida_mensal - (d.gastos_por_categoria.map Prod.snd).sum := by
      linarith
    rw [if_neg h1, if_pos h]
    exact ⟨iff_of_false (by decide) h1, iff_of_true rfl h,
      iff_of_false (by decide) (ne_of_lt h)⟩
  · have h1 : ¬ 0 < d.renda_liquida_mensal - (d.gastos_por_categoria.map Prod.snd).sum := by
      rw [h]; exact lt_irrefl 0
    have h2 : ¬ d.renda_liquida_mensal - (d.gastos_por_categoria.map Prod.snd).sum < 0 := by
      rw [h]; exact lt_irrefl 0
    rw [if_neg h1, if_neg h2]
    exact ⟨iff_of_false (by decide) h1, iff_of_false (by decide) h2, iff_of_true rfl h⟩
  · rw [if_pos h]
    exact ⟨iff_of_true rfl h, iff_of_false (by decide) (lt_asymm h),
      iff_of_false (by decide) (ne_of_gt h)⟩

/-- C2: the fund-planning stage sets the balance available for the fund to
max 0 (monthly balance), hence a non-negative value; when it is positive,
months-to-target is the ideal target divided by it and the suggested
contribution equals it; when it is zero, months-to-target is the explicit
sentinel none (never a division result) and the contribution is 0. -/
theorem reserva_saldo_e_sentinela (d : DadosFinanceirosUsuario) :
    (planejar_reserva_emergencia d).saldo_mensal_para_reserva = max 0 d.saldo_mensal ∧
    0 ≤ (planejar_reserva_emergencia d).saldo_mensal_para_reserva ∧
    (0 < (planejar_reserva_emergencia d).saldo_mensal_para_reserva →
      (planejar_reserva_emergencia d).tempo_para_montar_reserva_meses
        = some ((planejar_reserva_emergencia d).valor_reserva_emergencia_ideal
            / (planejar_reserva_emergencia d).saldo_mensal_para_reserva) ∧
      (planejar_reserva_emergencia d).meta_mensal_reserva
        = (planejar_reserva_emergencia d).saldo_mensal_para_reserva) ∧
    ((planejar_reserva_emergencia d).saldo_mensal_para_reserva = 0 →
      (planejar_reserva_emergencia d).tempo_para_montar_reserva_meses = none ∧
      (planejar_reserva_emergencia d).meta_mensal_reserva = 0) := by
  refine ⟨planejar_saldo_para d, ?_, ?_, ?_⟩
  · rw [planejar_saldo_para]; exact le_max_left 0 _
  · intro h
    rw [planejar_saldo_para] at h
    rw [planejar_tempo, planejar_valor, planejar_saldo_para, planejar_meta, if_pos h, if_pos h]
    exact ⟨rfl, rfl⟩
  · intro h
    rw [planejar_saldo_para] at h
    have h1 : ¬ 0 < max 0 d.saldo_mensal := by rw [h]; exact lt_irrefl 0
    rw [planejar_tempo, planejar_meta, if_neg h1, if_neg h1]
    exact ⟨rfl, rfl⟩

/-- C2 witness: instantiation at a concrete snapshot with saldo 10. -/
theorem reserva_saldo_e_sentinela_witness :
    (planejar_reserva_emergencia { saldo_mensal := 10 }).saldo_mensal_para_reserva
        = max 0 ({ saldo_mensal := 10 } : DadosFinanceirosUsuario).saldo_mensal ∧
    0 ≤ (planejar_reserva_emergencia { saldo_mensal := 10 }).saldo_mensal_para_reserva ∧
    (0 < (planejar_reserva_emergencia { saldo_mensal := 10 }).saldo_mensal_para_reserva →
      (planejar_reserva_emergencia { saldo_mensal := 10 }).tempo_para_montar_reserva_meses
        = some ((planejar_reserva_emergencia { saldo_mensal := 10 }).valor_reserva_emergencia_ideal
            / (planejar_reserva_emergencia { saldo_mensal := 10 }).saldo_mensal_para_reserva) ∧
      (planejar_reserva_emergencia { saldo_mensal := 10 }).meta_mensal_reserva
        = (planejar_reserva_emergencia { saldo_mensal := 10 }).saldo_mensal_para_reserva) ∧
    ((planejar_reserva_emergencia { saldo_mensal := 10 }).saldo_mensal_para_reserva = 0 →
      (planejar_reserva_emergencia { saldo_mensal := 10 }).tempo_para_montar_reserva_meses = none ∧
      (planejar_reserva_emergencia { saldo_mensal := 10 }).meta_mensal_reserva = 0) :=
  reserva_saldo_e_sentinela { saldo_mensal := 10 }

/-- C4: the fund-planning stage is total and its only division is guarded:
for every snapshot either the balance available is zero and months-to-target
is the sentinel none, or the balance available is strictly positive and
months-to-target is the exact quotient of the ideal target by it. -/
theorem reserva_divisao_guardada (d : DadosFinanceirosUsuario) :
    ((planejar_reserva_emergencia d).tempo_para_montar_reserva_meses = none ∧
      (planejar_reserva_emergencia d).saldo_mensal_para_reserva = 0) ∨
    (∃ q : ℚ, (planejar_reserva_emergencia d).tempo_para_montar_reserva_meses = some q ∧
      0 < (planejar_reserva_emergencia d).saldo_mensal_para_reserva ∧
      q * (planejar_reserva_emergencia d).saldo_mensal_para_reserva
        = (planejar_reserva_emergencia d).valor_reserva_emergencia_ideal) := by
  by_cases h : 0 < max 0 d.saldo_mensal
  · right
    refine ⟨(d.total_gastos_essenciais *
        Nat.cast (if str_lower d.estabilidade_financeira ∈ ["autônomo", "informal"] then 12 else 6))
      / max 0 d.saldo_mensal, ?_, ?_, ?_⟩
    · rw [planejar_tempo, if_pos h]
    · rw [planejar_saldo_para]; exact h
    · rw [planejar_saldo_para, planejar_valor]
      exact div_mul_cancel₀ _ (ne_of_gt h)
  · left
    have h0 : max 0 d.saldo_mensal = 0 := le_antisymm (not_lt.mp h) (le_max_left 0 _)
    constructor
    · rw [planejar_tempo, if_neg h]
    · rw [planejar_saldo_para, h0]

/-- C5: for a snapshot whose stability category is one of the six values
offered by the form, the suggested horizon is 12 months exactly when the
category is Autônomo or Informal and 6 otherwise, and the ideal fund
target is total essential expenses times that horizon. -/
theorem reserva_horizonte (d : DadosFinanceirosUsuario)
    (h : d.estabilidade_financeira ∈
      ["CLT", "Autônomo", "Informal", "Empresário", "Aposentado", "Outro"]) :
    ((planejar_reserva_emergencia d).meses_reserva_sugerido = 12 ↔
        d.estabilidade_financeira ∈ ["Autônomo", "Informal"]) ∧
    (d.estabilidade_financeira ∉ ["Autônomo", "Informal"] →
        (planejar_reserva_emergencia d).meses_reserva_sugerido = 6) ∧
    (planejar_reserva_emergencia d).valor_reserva_emergencia_ideal
      = d.total_gastos_essenciais * ((planejar_reserva_emergencia d).meses_reserva_sugerido : ℚ) := by
  simp only [List.mem_cons, List.mem_singleton, List.not_mem_nil, or_false] at h
  rcases h with h | h | h | h | h | h <;>
    rw [planejar_valor, planejar_meses, h] <;>
    exact ⟨by decide, by decide, rfl⟩

/-- C5 witness: instantiation at a snapshot with stability Autônomo. -/
theorem reserva_horizonte_witness :
    ((planejar_reserva_emergencia { estabilidade_financeira := "Autônomo" }).meses_reserva_sugerido = 12 ↔
        ({ estabilidade_financeira := "Autônomo" } : DadosFinanceirosUsuario).estabilidade_financeira
          ∈ ["Autônomo", "Informal"]) ∧
    (({ estabilidade_financeira := "Autônomo" } : DadosFinanceirosUsuario).estabilidade_financeira
          ∉ ["Autônomo", "Informal"] →
        (planejar_reserva_emergencia { estabilidade_financeira := "Autônomo" }).meses_reserva_sugerido = 6) ∧
    (planejar_reserva_emergencia { estabilidade_financeira := "Autônomo" }).valor_reserva_emergencia_ideal
      = ({ estabilidade_financeira := "Autônomo" } : DadosFinanceirosUsuario).total_gastos_essenciais
          * ((planejar_reserva_emergencia { estabilidade_financeira := "Autônomo" }).meses_reserva_sugerido : ℚ) :=
  reserva_horizonte { estabilidade_financeira := "Autônomo" } (by decide)

/-- C6: an expense category absent from the nine-entry classification
table, when kept (amount positive), is classified with the default pair
tipo Variável / natureza Variável; its amount is part of the total
monthly expenses but the essential total equals the essential sum taken
over the other categories only. -/
theorem categoria_desconhecida (email fonte estab : String) (renda : ℚ) (dep : ℕ)
    (gastos patrimonio : List (String × ℚ)) (dividas : List Divida)
    (cat : String) (v : ℚ)
    (hmem : (cat, v) ∈ gastos) (hv : 0 < v)
    (habs : classificacao_padrao.lookup cat = none) :
    classificacao_padrao.length = 9 ∧
    (processar_dados_streamlit email renda fonte dep estab gastos patrimonio
        dividas).classificacao_gastos.lookup cat = some ⟨"Variável", "Variável"⟩ ∧
    (cat, v) ∈ (processar_dados_streamlit email renda fonte dep estab gastos patrimonio
        dividas).gastos_por_categoria ∧
    (analisar_fluxo_caixa (processar_dados_streamlit email renda fonte dep estab gastos
        patrimonio dividas)).total_gastos_mensais
      = sumValues (processar_dados_streamlit email renda fonte dep estab gastos patrimonio
          dividas).gastos_por_categoria ∧
    (analisar_fluxo_caixa (processar_dados_streamlit email renda fonte dep estab gastos
        patrimonio dividas)).total_gastos_essenciais
      = sumValues ((processar_dados_streamlit email renda fonte dep estab gastos patrimonio
            dividas).gastos_por_categoria.filter
          (fun p => decide (p.1 ≠ cat) &&
            (tipoDe (processar_dados_streamlit email renda fonte dep estab gastos patrimonio
                dividas).classificacao_gastos p.1 == some "Essencial"))) := by
  have hkept : (cat, v) ∈ gastos.filter (fun p => decide (0 < p.2)) :=
    List.mem_filter.mpr ⟨hmem, decide_eq_true hv⟩
  have hkey : cat ∈ (gastos.filter (fun p => decide (0 < p.2))).map Prod.fst :=
    List.mem_map.mpr ⟨(cat, v), hkept, rfl⟩
  have hlook : ((gastos.filter (fun p => decide (0 < p.2))).map (fun p =>
        (p.1, (classificacao_padrao.lookup p.1).getD ⟨"Variável", "Variável"⟩))).lookup cat
      = some ((classificacao_padrao.lookup cat).getD ⟨"Variável", "Variável"⟩) :=
    lookup_map_fst _ (fun c => (classificacao_padrao.lookup c).getD ⟨"Variável", "Variável"⟩) cat hkey
  rw [habs] at hlook
  refine ⟨rfl, ?_, ?_, rfl, ?_⟩
  · rw [processar_classificacao]
    exact hlook
  · rw [processar_gastos]
    exact hkept
  · rw [analisar_essenciais, sumValues]
    refine congrArg List.sum (congrArg (List.map Prod.snd) ?_)
    apply filter_essencial_excl
    rw [processar_classificacao, tipoDe, hlook]
    decide

/-- C6 witness: the unknown category Pets with amount 100 among the
expenses. -/
theorem categoria_desconhecida_witness :
    classificacao_padrao.length = 9 ∧
    (processar_dados_streamlit "" 0 "" 0 "" [("Pets", 100)] []
        []).classificacao_gastos.lookup "Pets" = some ⟨"Variável", "Variável"⟩ ∧
    ("Pets", (100 : ℚ)) ∈ (processar_dados_streamlit "" 0 "" 0 "" [("Pets", 100)] []
        []).gastos_por_categoria ∧
    (analisar_fluxo_caixa (processar_dados_streamlit "" 0 "" 0 "" [("Pets", 100)] []
        [])).total_gastos_mensais
      = sumValues (processar_dados_streamlit "" 0 "" 0 "" [("Pets", 100)] []
          []).gastos_por_categoria ∧
    (analisar_fluxo_caixa (processar_dados_streamlit "" 0 "" 0 "" [("Pets", 100)] []
        [])).total_gastos_essenciais
      = sumValues ((processar_dados_streamlit "" 0 "" 0 "" [("Pets", 100)] []
            []).gastos_por_categoria.filter
          (fun p => decide (p.1 ≠ "Pets") &&
            (tipoDe (processar_dados_streamlit "" 0 "" 0 "" [("Pets", 100)] []
                []).classificacao_gastos p.1 == some "Essencial"))) :=
  categoria_desconhecida "" "" "" 0 0 [("Pets", 100)] [] [] "Pets" 100
    (by decide) (by norm_num) (by decide)

/-- C7: the snapshot keeps exactly the strictly positive expense and asset
entries of the raw input mappings. -/
theorem filtro_positivos (email fonte estab : String) (renda : ℚ) (dep : ℕ)
    (gastos patrimonio : List (String × ℚ)) (dividas : List Divida) :
    (∀ k v, (k, v) ∈ (processar_dados_streamlit email renda fonte dep estab gastos patrimonio
        dividas).gastos_por_categoria ↔ ((k, v) ∈ gastos ∧ 0 < v)) ∧
    (∀ k v, (k, v) ∈ (processar_dados_streamlit email renda fonte dep estab gastos patrimonio
        dividas).patrimonio ↔ ((k, v) ∈ patrimonio ∧ 0 < v)) := by
  constructor <;> intro k v <;> simp [List.mem_filter]

/-- C8: for every snapshot produced by the builder, after the cash-flow
stage the essential total never exceeds the total of monthly expenses. -/
theorem essenciais_le_total (email fonte estab : String) (renda : ℚ) (dep : ℕ)
    (gastos patrimonio : List (String × ℚ)) (dividas : List Divida) :
    (analisar_fluxo_caixa (processar_dados_streamlit email renda fonte dep estab gastos
        patrimonio dividas)).total_gastos_essenciais
      ≤ (analisar_fluxo_caixa (processar_dados_streamlit email renda fonte dep estab gastos
          patrimonio dividas)).total_gastos_mensais := by
  rw [analisar_essenciais, analisar_total]
  apply sum_filter_le_sum
  intro x hx
  rw [processar_gastos] at hx
  exact le_of_lt (of_decide_eq_true (List.mem_filter.mp hx).2)

/-- C9: running the cash-flow stage followed by the fund-planning stage a
second time leaves the snapshot exactly as after the first run: the
composed pipeline is idempotent. -/
theorem pipeline_idempotente (d : DadosFinanceirosUsuario) :
    executar_analise (executar_analise d) = executar_analise d := by
  unfold executar_analise
  rw [show analisar_fluxo_caixa (planejar_reserva_emergencia (analisar_fluxo_caixa d))
        = planejar_reserva_emergencia (analisar_fluxo_caixa d) from
      analisar_fixpoint _ (by simp) (by simp) (by simp) (by simp)]
  exact planejar_fixpoint _ (by simp) (by simp) (by simp) (by simp) (by simp)

/-- C10: the two calculator stages modify only derived fields; every input
field of the snapshot (email, income, income source, dependant count,
stability category, expense mapping, classification mapping, asset
mapping, debt list) is left unchanged by both. -/
theorem etapas_preservam_entradas (d : DadosFinanceirosUsuario) :
    ((analisar_fluxo_caixa d).email_pessoal_usuario = d.email_pessoal_usuario ∧
     (analisar_fluxo_caixa d).renda_liquida_mensal = d.renda_liquida_mensal ∧
     (analisar_fluxo_caixa d).fonte_renda = d.fonte_renda ∧
     (analisar_fluxo_caixa d).dependentes = d.dependentes ∧
     (analisar_fluxo_caixa d).estabilidade_financeira = d.estabilidade_financeira ∧
     (analisar_fluxo_caixa d).gastos_por_categoria = d.gastos_por_categoria ∧
     (analisar_fluxo_caixa d).classificacao_gastos = d.classificacao_gastos ∧
     (analisar_fluxo_caixa d).patrimonio = d.patrimonio ∧
     (analisar_fluxo_caixa d).dividas = d.dividas) ∧
    ((planejar_reserva_emergencia d).email_pessoal_usuario = d.email_pessoal_usuario ∧
     (planejar_reserva_emergencia d).renda_liquida_mensal = d.renda_liquida_mensal ∧
     (planejar_reserva_emergencia d).fonte_renda = d.fonte_renda ∧
     (planejar_reserva_emergencia d).dependentes = d.dependentes ∧
     (planejar_reserva_emergencia d).estabilidade_financeira = d.estabilidade_financeira ∧
     (planejar_reserva_emergencia d).gastos_por_categoria = d.gastos_por_categoria ∧
     (planejar_reserva_emergencia d).classificacao_gastos = d.classificacao_gastos ∧
     (planejar_reserva_emergencia d).patrimonio = d.patrimonio ∧
     (planejar_reserva_emergencia d).dividas = d.dividas) :=
  ⟨⟨rfl, rfl, rfl, rfl, rfl, rfl, rfl, rfl, rfl⟩,
   ⟨planejar_email d, planejar_renda d, planejar_fonte d, planejar_dependentes d,
    planejar_estabilidade d, planejar_gastos d, planejar_classificacao d,
    planejar_patrimonio d, planejar_dividas d⟩⟩
example : (str_lower "Autônomo" ∈ ["autônomo", "informal"]) := by decide
example : ¬ (str_lower "CLT" ∈ ["autônomo", "informal"]) := by decide
example : classificacao_padrao.lookup "Pets" = none := by decide
example : classificacao_padrao.lookup "Saúde" = some ⟨"Essencial", "Variável"⟩ := by decide
